import Mathlib

/-!
Shallow embedding of the Build Resume & State-Transition subsystem of the
state-build-framework repository (api_service/app/routers/builds.py,
state_codes.py, resume.py, variables.py, artifacts.py, with the ORM rows of
api_service/app/models.py).

Modelling conventions:
* Machine timestamps are `Nat` ticks; each mutating endpoint stamps rows with
  the database clock `now` and advances it, mirroring `datetime.utcnow()`
  taken once per request.
* A router handler becomes a function `Db → args → Db × Except ApiError out`;
  the returned `Db` is the state after the request (unchanged when the
  handler raises before any mutation, exactly as in the source, where every
  `raise HTTPException` precedes the first `db.add`/attribute write).
* `ApiError` carries the `status_code`/`detail` of the raised `HTTPException`
  (string interpolation of ids into `detail` is elided).
* An ORM `query(...).filter(...)` is a `List.filter`/`List.find?` over the
  table list, which is kept in insertion (primary-key) order.  `order_by(k)`
  requests only sortedness by `k`: SQL leaves the order among rows with equal
  keys unspecified.  The embedding realizes such a query with a concrete sort
  (`List.insertionSort`) as one admissible engine, but the only property the
  theorems draw from it is the query's contract — a permutation of the
  filtered rows sorted by the requested key (`SqlStateCodeSorted` for the
  artifact listing); tie order is never relied on.  Likewise
  `order_by(desc(created_at)).first()` returns a row carrying the maximum
  `created_at` (`mostRecent?` picks one such row); theorems whose meaning
  would depend on the choice among timestamp ties instead hypothesize
  distinct timestamps.
* ORM mutation of the single row object returned by `.first()` is
  `updateFirst`: only the first row matching the query predicate changes.
* The repository contains two generations of the data model.  builds.py and
  state_codes.py are written against the named-state-code scheme
  (`current_state_code_id`, `end_date`), while resume.py and variables.py
  are written against the numeric-state scheme of models.py
  (`Build.current_state : int`, `BuildState.state : int`, `created_at`).
  Both are embedded, each faithful to the router that uses it.
-/

namespace StateBuild

/-- The payload of a raised `HTTPException`: HTTP status code and detail. -/
structure ApiError where
  status_code : Nat
  detail : String
deriving DecidableEq

/-- A project row; `end_date = none` means the project is active
(builds.py and state_codes.py filter `Project.end_date == None`). -/
structure Project where
  id : Nat
  end_date : Option Nat
deriving DecidableEq

/-- A state-code row of the named-catalog scheme (models.py `StateCode`):
per-project name with `is_initial`/`is_final`/`is_error` flags and a
soft-delete `end_date` (none = active). -/
structure StateCode where
  id : Nat
  project_id : Nat
  name : String
  description : Option String
  is_initial : Bool
  is_final : Bool
  is_error : Bool
  end_date : Option Nat
deriving DecidableEq

/-- A build row as manipulated by builds.py: current-state pointer,
status string, and terminal timestamp `end_date` (the spec calls it
`end_time`; none = still running). -/
structure Build where
  id : Nat
  project_id : Nat
  current_state_code_id : Nat
  status : String
  start_date : Nat
  end_date : Option Nat
deriving DecidableEq

/-- A history row appended by builds.py (`BuildState` of the named scheme):
which state, with what status/message/error details, stamped `start_date`. -/
structure BuildStateRow where
  id : Nat
  build_id : Nat
  state_code_id : Nat
  status : String
  message : Option String
  error_message : Option String
  error_code : Option String
  start_date : Nat
deriving DecidableEq

/-- The relational store seen by builds.py and state_codes.py, plus the
request clock. -/
structure Db where
  projects : List Project
  state_codes : List StateCode
  builds : List Build
  build_states : List BuildStateRow
  now : Nat
deriving DecidableEq

/-- Replace the first element satisfying `p` by its image under `f`
(ORM semantics: `.first()` returns one row object and only that object is
mutated). -/
def updateFirst (p : α → Bool) (f : α → α) : List α → List α
  | [] => []
  | x :: xs => if p x then f x :: xs else x :: updateFirst p f xs

/-- `db.query(Project).filter(id == pid, end_date == None).first()`. -/
def findActiveProject (db : Db) (pid : Nat) : Option Project :=
  db.projects.find? (fun p => p.id == pid && p.end_date == none)

/-- The query predicate for the active initial state code of a project. -/
def activeInitialFor (pid : Nat) (c : StateCode) : Bool :=
  c.project_id == pid && c.is_initial && c.end_date == none

/-- `db.query(StateCode).filter(project_id == pid, is_initial == True,
end_date == None).first()` (builds.py lines 39-43, state_codes.py 49-53). -/
def findActiveInitialState (db : Db) (pid : Nat) : Option StateCode :=
  db.state_codes.find? (activeInitialFor pid)

/-- `db.query(Build).filter(Build.id == build_id).first()`. -/
def findBuild (db : Db) (bid : Nat) : Option Build :=
  db.builds.find? (fun b => b.id == bid)

/-- `db.query(StateCode).filter(project_id, name, end_date == None).first()`
(builds.py lines 103-107). -/
def findTargetState (db : Db) (pid : Nat) (name : String) : Option StateCode :=
  db.state_codes.find? (fun sc => sc.project_id == pid && sc.name == name && sc.end_date == none)

/-- builds.py `create_build` (lines 18-82): requires an active project and an
active initial state code (the latter missing raises status 400), then
inserts the build with status `running` at the initial state and one
`Build initialized` history row. -/
def create_build (db : Db) (bid hid pid : Nat) : Db × Except ApiError Build :=
  match findActiveProject db pid with
  | none => (db, .error ⟨404, "Active project not found"⟩)
  | some _ =>
    match findActiveInitialState db pid with
    | none =>
      (db, .error ⟨400, "No initial state defined for this project. Please create an initial state code."⟩)
    | some ist =>
      let b : Build := ⟨bid, pid, ist.id, "running", db.now, none⟩
      let row : BuildStateRow := ⟨hid, bid, ist.id, "running", some "Build initialized", none, none, db.now⟩
      ({ db with builds := db.builds ++ [b],
                 build_states := db.build_states ++ [row],
                 now := db.now + 1 },
       .ok b)

/-- The status chosen by builds.py lines 117-125: `is_final` is tested
before `is_error`. -/
def newStatusFor (t : StateCode) : String :=
  if t.is_final then "completed" else if t.is_error then "failed" else "running"

/-- builds.py `update_build_state` (lines 85-145): 404 when the build is
absent, 400 when it is already terminal (`end_date` set) or the target name
does not resolve to an active state code of its project; otherwise moves the
pointer, recomputes status (final ⇒ completed, else error ⇒ failed, else
running; terminal targets also set `end_date`) and appends one history row. -/
def update_build_state (db : Db) (hid bid : Nat) (state_name : String) (message : Option String) :
    Db × Except ApiError BuildStateRow :=
  match findBuild db bid with
  | none => (db, .error ⟨404, "Build not found"⟩)
  | some b =>
    if b.end_date ≠ none then
      (db, .error ⟨400, "Cannot transition a completed or failed build."⟩)
    else
      match findTargetState db b.project_id state_name with
      | none => (db, .error ⟨400, "State not found or is inactive for this project."⟩)
      | some t =>
        let row : BuildStateRow := ⟨hid, bid, t.id, newStatusFor t, message, none, none, db.now⟩
        ({ db with
            builds := updateFirst (fun x => x.id == bid)
              (fun x => { x with
                current_state_code_id := t.id,
                status := newStatusFor t,
                end_date := if t.is_final || t.is_error then some db.now else x.end_date })
              db.builds,
            build_states := db.build_states ++ [row],
            now := db.now + 1 },
         .ok row)

/-- builds.py `record_build_failure` (lines 148-188): 404 when absent, 400
when already terminal; otherwise marks the build failed in place (status and
`end_date` only — the state pointer does not move) and appends one history
row at the unchanged current state carrying the error details. -/
def record_build_failure (db : Db) (hid bid : Nat) (error_message error_code : Option String) :
    Db × Except ApiError BuildStateRow :=
  match findBuild db bid with
  | none => (db, .error ⟨404, "Build not found"⟩)
  | some b =>
    if b.end_date ≠ none then
      (db, .error ⟨400, "Build has already been completed or failed."⟩)
    else
      let row : BuildStateRow :=
        ⟨hid, bid, b.current_state_code_id, "failed", some "Build failure recorded", error_message, error_code, db.now⟩
      ({ db with
          builds := updateFirst (fun x => x.id == bid)
            (fun x => { x with status := "failed", end_date := some db.now }) db.builds,
          build_states := db.build_states ++ [row],
          now := db.now + 1 },
       .ok row)

/-- Request body of state_codes.py `create_state_code`. -/
structure StateCodeCreate where
  name : String
  description : Option String
  is_initial : Bool
  is_final : Bool
  is_error : Bool
deriving DecidableEq

/-- Request body of state_codes.py `update_state_code`; `none` fields were
not supplied (`exclude_unset=True`). -/
structure StateCodeUpdate where
  name : Option String
  description : Option (Option String)
  is_initial : Option Bool
  is_final : Option Bool
  is_error : Option Bool
deriving DecidableEq

/-- The `setattr` loop of state_codes.py lines 136-138: every supplied field
overwrites the row, with no cross-row validation. -/
def applyStateCodeUpdate (sc : StateCode) (u : StateCodeUpdate) : StateCode :=
  { sc with
    name := u.name.getD sc.name,
    description := u.description.getD sc.description,
    is_initial := u.is_initial.getD sc.is_initial,
    is_final := u.is_final.getD sc.is_final,
    is_error := u.is_error.getD sc.is_error }

/-- state_codes.py `create_state_code` (lines 17-69): active project
required; duplicate active name rejected; a second active initial state
rejected; otherwise the row is inserted active. -/
def create_state_code (db : Db) (scid pid : Nat) (sc : StateCodeCreate) :
    Db × Except ApiError StateCode :=
  match findActiveProject db pid with
  | none => (db, .error ⟨404, "Active project not found"⟩)
  | some _ =>
    if (db.state_codes.find? (fun c => c.project_id == pid && c.name == sc.name && c.end_date == none)).isSome then
      (db, .error ⟨400, "An active state code with this name already exists for this project."⟩)
    else if sc.is_initial && (findActiveInitialState db pid).isSome then
      (db, .error ⟨400, "An active initial state already exists for this project. Deactivate it before creating a new one."⟩)
    else
      let row : StateCode := ⟨scid, pid, sc.name, sc.description, sc.is_initial, sc.is_final, sc.is_error, none⟩
      ({ db with state_codes := db.state_codes ++ [row], now := db.now + 1 }, .ok row)

/-- The lookup predicate shared by `update_state_code`/`delete_state_code`:
matching id and project, still active. -/
def activeCodePred (pid scid : Nat) (c : StateCode) : Bool :=
  c.id == scid && c.project_id == pid && c.end_date == none

/-- state_codes.py `update_state_code` (lines 116-142): finds the active row
and applies the supplied fields as-is — in particular `is_initial` may be
set with no uniqueness check. -/
def update_state_code (db : Db) (pid scid : Nat) (u : StateCodeUpdate) :
    Db × Except ApiError StateCode :=
  match db.state_codes.find? (activeCodePred pid scid) with
  | none => (db, .error ⟨404, "Active state code not found"⟩)
  | some c =>
    ({ db with
        state_codes := updateFirst (activeCodePred pid scid) (fun x => applyStateCodeUpdate x u) db.state_codes,
        now := db.now + 1 },
     .ok (applyStateCodeUpdate c u))

/-- state_codes.py `delete_state_code` (lines 145-179): soft delete, refused
while any active build points at the code. -/
def delete_state_code (db : Db) (pid scid : Nat) : Db × Except ApiError Unit :=
  match db.state_codes.find? (activeCodePred pid scid) with
  | none => (db, .error ⟨404, "Active state code not found"⟩)
  | some _ =>
    if (db.builds.filter (fun b => b.current_state_code_id == scid && b.end_date == none)).length > 0 then
      (db, .error ⟨400, "Cannot deactivate state code. It is currently used by active builds."⟩)
    else
      ({ db with
          state_codes := updateFirst (activeCodePred pid scid) (fun x => { x with end_date := some db.now }) db.state_codes,
          now := db.now + 1 },
       .ok ())

/-- Number of active `is_initial` state codes of a project. -/
def activeInitialCount (db : Db) (pid : Nat) : Nat :=
  (db.state_codes.filter (activeInitialFor pid)).length

/-- The claimed registry invariant: every project has at most one active
initial state code. -/
def InitialInv (db : Db) : Prop :=
  ∀ p ∈ db.projects, activeInitialCount db p.id ≤ 1

/-- The claimed build invariant: `end_date` (spec: `end_time`) is set iff
the status is terminal. -/
def BuildOk (b : Build) : Prop :=
  b.end_date ≠ none ↔ (b.status = "completed" ∨ b.status = "failed")

/-- Stores reachable from a build-free store by any sequence of
`create_build`, `update_build_state` and `record_build_failure` calls
(arguments arbitrary, error outcomes included). -/
inductive Reachable : Db → Prop
  | start : ∀ db : Db, db.builds = [] → Reachable db
  | create : ∀ (db : Db) (bid hid pid : Nat),
      Reachable db → Reachable (create_build db bid hid pid).1
  | transition : ∀ (db : Db) (hid bid : Nat) (name : String) (msg : Option String),
      Reachable db → Reachable (update_build_state db hid bid name msg).1
  | fail : ∀ (db : Db) (hid bid : Nat) (em ec : Option String),
      Reachable db → Reachable (record_build_failure db hid bid em ec).1

/-! ## The resume-side model (resume.py, variables.py) -/

/-- A build row as read by resume.py: the numeric-state scheme of models.py
(`Build.current_state : int`). -/
structure RBuild where
  id : Nat
  project_id : Nat
  current_state : Nat
deriving DecidableEq

/-- A history row as read by resume.py (models.py `BuildState`): numeric
`state`, `status` string, `created_at` stamp. -/
structure HistRow where
  build_id : Nat
  state : Nat
  status : String
  created_at : Nat
deriving DecidableEq

/-- An artifact row (models.py `BuildArtifact`): numeric `state_code`,
`is_resumable` flag, soft-delete `deleted_at`, `created_at` stamp. -/
structure Artifact where
  id : Nat
  build_id : Nat
  state_code : Nat
  artifact_name : String
  is_resumable : Bool
  deleted_at : Option Nat
  created_at : Nat
deriving DecidableEq

/-- A build variable row (models.py `BuildVariable`). -/
structure BuildVariable where
  build_id : Nat
  variable_key : String
  variable_value : String
  is_sensitive : Bool
  is_required_for_resume : Bool
deriving DecidableEq

/-- A resumable-state configuration row (models.py `ResumableState`),
reduced to the keys resume.py matches on. -/
structure ResumableStateRow where
  project_id : Nat
  state_code : Nat
  is_resumable : Bool
deriving DecidableEq

/-- The store seen by resume.py and variables.py (the `variables` table is
called `build_variables` here because `variables` is reserved in Lean). -/
structure ResumeDb where
  builds : List RBuild
  build_states : List HistRow
  artifacts : List Artifact
  build_variables : List BuildVariable
  resumable_states : List ResumableStateRow
deriving DecidableEq

/-- The resume-context response (models.py `ResumeContext`); the Python dict
of variables is an insertion-ordered association list. -/
structure ResumeContext where
  build_id : Nat
  current_state : Nat
  last_successful_state : Option Nat
  failed_state : Option Nat
  resume_from_state : Nat
  artifacts : List Artifact
  variables_dict : List (String × String)
  resumable_state_config : Option ResumableStateRow
deriving DecidableEq

/-- Python truthiness of an `Optional[int]`: `None` and `0` are falsy.
This is the test the source applies in
`failed_state_code if failed_state_code else current_state`. -/
def pyTruthy : Option Nat → Bool
  | none => false
  | some n => n != 0

/-- Python dict assignment `d[k] = v`: overwrite in place if the key exists,
else append. -/
def dictSet (d : List (String × String)) (k v : String) : List (String × String) :=
  if d.any (fun p => p.1 == k) then d.map (fun p => if p.1 == k then (k, v) else p)
  else d ++ [(k, v)]

/-- The masking rule applied per row by variables.py lines 140-145 and
resume.py lines 379-383. -/
def maskValue (v : BuildVariable) : String :=
  if v.is_sensitive then "******" else v.variable_value

/-- The dict-building loop shared by both endpoints. -/
def maskedDict (vars : List BuildVariable) : List (String × String) :=
  vars.foldl (fun acc v => dictSet acc v.variable_key (maskValue v)) []

/-- The optional `required_for_resume` query filter of variables.py. -/
def applyResumeFlag (filt : Option Bool) (vars : List BuildVariable) : List BuildVariable :=
  match filt with
  | none => vars
  | some r => vars.filter (fun v => v.is_required_for_resume == r)

/-- The key→value projection: filter (when requested), then mask-and-insert
row by row. -/
def varsToDict (filt : Option Bool) (vars : List BuildVariable) : List (String × String) :=
  maskedDict (applyResumeFlag filt vars)

/-- variables.py `get_variables_dict` (lines 108-146). -/
def get_variables_dict (db : ResumeDb) (bid : Nat) (filt : Option Bool) :
    Except ApiError (List (String × String)) :=
  match db.builds.find? (fun b => b.id == bid) with
  | none => .error ⟨404, "Build not found"⟩
  | some _ => .ok (varsToDict filt (db.build_variables.filter (fun v => v.build_id == bid)))

/-- Running maximum by `created_at`, keeping the earlier row on ties. -/
def maxByCreated (m : HistRow) (rows : List HistRow) : HistRow :=
  rows.foldl (fun acc r => if acc.created_at < r.created_at then r else acc) m

/-- `order_by(desc(created_at)).first()`: the first row carrying the maximum
`created_at` (head of a stable descending sort); `none` on an empty result. -/
def mostRecent? : List HistRow → Option HistRow
  | [] => none
  | r :: rs => some (maxByCreated r rs)

/-- History rows of the build with status `completed` (resume.py 359-362). -/
def completedRowsOf (db : ResumeDb) (bid : Nat) : List HistRow :=
  db.build_states.filter (fun r => r.build_id == bid && r.status == "completed")

/-- History rows of the build with status in {failed, error}
(resume.py 395-398). -/
def failedRowsOf (db : ResumeDb) (bid : Nat) : List HistRow :=
  db.build_states.filter (fun r => r.build_id == bid && (r.status == "failed" || r.status == "error"))

/-- Non-deleted resumable artifacts of the build (resume.py 367-371). -/
def resumableArtifactsOf (db : ResumeDb) (bid : Nat) : List Artifact :=
  db.artifacts.filter (fun a => a.build_id == bid && a.is_resumable && a.deleted_at == none)

/-- The sort key of `order_by(BuildArtifact.state_code)` — the only
ordering key the resume-context artifact query requests (resume.py 371);
contrast artifacts.py 123, where `list_artifacts` adds `created_at`. -/
def stateCodeLe (a b : Artifact) : Prop := a.state_code ≤ b.state_code

instance : DecidableRel stateCodeLe := fun a b => Nat.decLe a.state_code b.state_code

instance : IsTotal Artifact stateCodeLe := ⟨fun a b => Nat.le_total a.state_code b.state_code⟩

instance : IsTrans Artifact stateCodeLe := ⟨fun _ _ _ => Nat.le_trans⟩

/-- Everything `ORDER BY state_code` requires of the rows the query
returns: some permutation of the filtered rows that is sorted by
`state_code`.  SQL guarantees nothing about the relative order of rows
sharing a `state_code`, so any `out` satisfying this contract is an
admissible result of the query at resume.py 367-371. -/
def SqlStateCodeSorted (l out : List Artifact) : Prop :=
  List.Perm out l ∧ out.Pairwise stateCodeLe

/-- Lexicographic order (state_code, then created_at) — the ordering the
specification promises for resume-context artifacts. -/
def artifactLex (a b : Artifact) : Prop :=
  a.state_code < b.state_code ∨ (a.state_code = b.state_code ∧ a.created_at ≤ b.created_at)

instance : DecidableRel artifactLex := fun _ _ =>
  inferInstanceAs (Decidable (_ ∨ _))

/-- resume.py `get_resume_context` (lines 327-414), translated step by step:
build lookup, `current_state` from the build row, most recent completed row
(defaulting the numeric code to 0 when none), resumable-artifact listing
ordered by `state_code` (the query requests no other key; `insertionSort`
here is one admissible engine for that single-key `ORDER BY`, and theorems
rely only on the `SqlStateCodeSorted` contract it satisfies), masked
variables dict, resumable-state config at the current state, most recent
failed/error row, and the truthiness-based choice of `resume_from_state`. -/
def get_resume_context (db : ResumeDb) (bid : Nat) : Except ApiError ResumeContext :=
  match db.builds.find? (fun b => b.id == bid) with
  | none => .error ⟨404, "Build not found"⟩
  | some b =>
    let last_state_code : Nat :=
      match mostRecent? (completedRowsOf db bid) with
      | some r => r.state
      | none => 0
    let arts := List.insertionSort stateCodeLe (resumableArtifactsOf db bid)
    let vars := maskedDict (db.build_variables.filter (fun v => v.build_id == bid))
    let cfg := db.resumable_states.find?
      (fun rs => rs.project_id == b.project_id && rs.state_code == b.current_state)
    let failed_state_code := (mostRecent? (failedRowsOf db bid)).map (fun r => r.state)
    let resume_from_state :=
      if pyTruthy failed_state_code then failed_state_code.getD 0 else b.current_state
    .ok ⟨bid, b.current_state, some last_state_code, failed_state_code,
         resume_from_state, arts, vars, cfg⟩

/-! ## Concrete example stores used by the closed theorems -/

/-- C1: a build at state 5 whose only history row is a failure at state 0. -/
def exDb1 : ResumeDb := ⟨[⟨1, 1, 5⟩], [⟨1, 0, "failed", 1⟩], [], [], []⟩

/-- C2: a build whose history has no completed row. -/
def exDb2 : ResumeDb := ⟨[⟨1, 1, 5⟩], [⟨1, 5, "running", 1⟩], [], [], []⟩

/-- C2 witness: two completed rows, the later one at state 7. -/
def exDb2w : ResumeDb := ⟨[⟨1, 1, 5⟩], [⟨1, 5, "completed", 1⟩, ⟨1, 7, "completed", 2⟩], [], [], []⟩

/-- The resume context returned on `exDb2w`. -/
def exCtx2w : ResumeContext := ⟨1, 5, some 7, none, 5, [], [], none⟩

/-- C3: resumable artifacts at states [10, 5, 5], created in that order. -/
def exArt10 : Artifact := ⟨1, 1, 10, "a10", true, none, 1⟩

def exArt5a : Artifact := ⟨2, 1, 5, "a5-first", true, none, 2⟩

def exArt5b : Artifact := ⟨3, 1, 5, "a5-second", true, none, 3⟩

def exDb3 : ResumeDb := ⟨[⟨1, 1, 10⟩], [], [exArt10, exArt5a, exArt5b], [], []⟩

/-- The resume context returned on `exDb3`. -/
def exCtx3 : ResumeContext := ⟨1, 10, some 0, none, 10, [exArt5a, exArt5b, exArt10], [], none⟩

/-- An active project used by the builds-side examples. -/
def exProject : Project := ⟨1, none⟩

/-- An active initial state code for `exProject`. -/
def exInitCode : StateCode := ⟨1, 1, "init", none, true, false, false, none⟩

/-- C4: a fresh store with a configured project. -/
def exDb4 : Db := ⟨[exProject], [exInitCode], [], [], 0⟩

/-- C5: a store holding one terminal (completed) build. -/
def exDb5 : Db := ⟨[exProject], [exInitCode], [⟨1, 1, 1, "completed", 0, some 3⟩], [], 4⟩

/-- C6: a store holding one running build. -/
def exDb6 : Db := ⟨[exProject], [exInitCode], [⟨1, 1, 1, "running", 0, none⟩], [], 4⟩

/-- C8: an active project whose only state code is not initial. -/
def exDb8 : Db := ⟨[exProject], [⟨1, 1, "mid", none, false, false, false, none⟩], [], [], 0⟩

/-- C10: a state code flagged both final and error. -/
def exFinalErrorCode : StateCode := ⟨2, 1, "done-bad", none, false, true, true, none⟩

/-- C10: a running build in a project that has the double-flagged code. -/
def exDb10 : Db := ⟨[exProject], [exInitCode, exFinalErrorCode], [⟨1, 1, 1, "running", 0, none⟩], [], 4⟩

/-- C9: an active initial code and an active ordinary code. -/
def exCodeA : StateCode := ⟨1, 1, "a", none, true, false, false, none⟩

def exCodeB : StateCode := ⟨2, 1, "b", none, false, false, false, none⟩

def exDb9 : Db := ⟨[exProject], [exCodeA, exCodeB], [], [], 0⟩

/-- C9: the update request that flips `is_initial` on without any check. -/
def u9 : StateCodeUpdate := ⟨none, none, some true, none, none⟩

/-- C9 witness: a store with a project and no state codes. -/
def exDb9w : Db := ⟨[exProject], [], [], [], 0⟩

/-- C9 witness: request creating an initial state code. -/
def exScCreate : StateCodeCreate := ⟨"init", none, true, false, false⟩

/-- C7 witness: a sensitive variable. -/
def exVarSensitive : BuildVariable := ⟨1, "token", "secret", true, false⟩

/-! ## Helper lemmas -/

theorem some_beq_none (x : Nat) : ((some x : Option Nat) == none) = false := rfl

theorem find?_updateFirst {α : Type} {p : α → Bool} {f : α → α} {l : List α} {b : α}
    (h : l.find? p = some b) (hf : p (f b) = true) :
    (updateFirst p f l).find? p = some (f b) := by
  induction l with
  | nil => simp at h
  | cons x xs ih =>
    by_cases hx : p x
    · rw [List.find?_cons_of_pos _ hx] at h
      obtain rfl := Option.some.inj h
      simp only [updateFirst, hx, if_true]
      exact List.find?_cons_of_pos _ hf
    · rw [List.find?_cons_of_neg _ hx] at h
      simp only [updateFirst, hx, if_false, Bool.false_eq_true]
      rw [List.find?_cons_of_neg _ hx]
      exact ih h

theorem mem_updateFirst {α : Type} {p : α → Bool} {f : α → α} {l : List α} {b : α}
    (h : l.find? p = some b) :
    ∀ y ∈ updateFirst p f l, y ∈ l ∨ y = f b := by
  induction l with
  | nil => simp [updateFirst]
  | cons x xs ih =>
    intro y hy
    by_cases hx : p x
    · rw [List.find?_cons_of_pos _ hx] at h
      obtain rfl := Option.some.inj h
      simp only [updateFirst, hx, if_true, List.mem_cons] at hy
      rcases hy with rfl | hy
      · right; rfl
      · left; exact List.mem_cons_of_mem _ hy
    · rw [List.find?_cons_of_neg _ hx] at h
      simp only [updateFirst, hx, if_false, Bool.false_eq_true, List.mem_cons] at hy
      rcases hy with rfl | hy
      · left; exact List.mem_cons_self _ _
      · rcases ih h y hy with h1 | h2
        · left; exact List.mem_cons_of_mem _ h1
        · right; exact h2

theorem mem_updateFirst_of_ne {α : Type} {p : α → Bool} {f : α → α} {l : List α} {x : α}
    (hx : x ∈ l) (hpx : p x = false) : x ∈ updateFirst p f l := by
  induction l with
  | nil => simp at hx
  | cons y ys ih =>
    by_cases hy : p y
    · simp only [updateFirst, hy, if_true, List.mem_cons]
      rcases List.mem_cons.mp hx with rfl | h
      · simp [hpx] at hy
      · right; exact h
    · simp only [updateFirst, hy, if_false, Bool.false_eq_true, List.mem_cons]
      rcases List.mem_cons.mp hx with rfl | h
      · left; rfl
      · right; exact ih h

/-! ## Claims -/

/-- C1 (code_bug evidence): on a build whose only history row is a failure
at numeric state 0, the source reports `failed_state = 0` but — because
`resume_from_state` is chosen with Python truthiness (`if failed_state_code`)
instead of an `is not None` test — it returns `resume_from_state` equal to
the current state 5, not to the failed state 0 demanded by the claim and by
the code comment above the computation. -/
theorem c1_resume_from_state_truthiness :
    (get_resume_context exDb1 1).toOption.map (fun c => c.failed_state) = some (some 0) ∧
    (get_resume_context exDb1 1).toOption.map (fun c => c.resume_from_state) = some 5 ∧
    (get_resume_context exDb1 1).toOption.map (fun c => c.resume_from_state) ≠ some 0 := by
  exact ⟨rfl, rfl, by decide⟩

/-- C2 counterexample: on a build with no `completed` history row the
endpoint returns `last_successful_state = some 0`, not `none` as claimed. -/
theorem c2_counterexample :
    (get_resume_context exDb2 1).toOption.map (fun c => c.last_successful_state) ≠ some none ∧
    (get_resume_context exDb2 1).toOption.map (fun c => c.last_successful_state) = some (some 0) := by
  exact ⟨by decide, rfl⟩

/-- C5: transitioning a build whose `end_date` (spec: `end_time`) is set
fails with status 400 for every target state name, and returns the store
unchanged — no build row or history row is touched. -/
theorem c5_terminal_transition_rejected (db : Db) (hid bid : Nat) (name : String)
    (msg : Option String) (b : Build)
    (hfind : findBuild db bid = some b) (hterm : b.end_date ≠ none) :
    update_build_state db hid bid name msg =
      (db, .error ⟨400, "Cannot transition a completed or failed build."⟩) := by
  simp [update_build_state, hfind, hterm]

/-- C5 witness: the terminal build of `exDb5` rejects a transition. -/
theorem c5_witness :
    update_build_state exDb5 9 1 "init" none =
      (exDb5, .error ⟨400, "Cannot transition a completed or failed build."⟩) :=
  c5_terminal_transition_rejected exDb5 9 1 "init" none ⟨1, 1, 1, "completed", 0, some 3⟩
    rfl (by decide)

/-- C6: on an existing non-terminal build, `record_build_failure` appends
exactly one history row at the build's unchanged current state code carrying
status failed and the given error details, sets only status/end_date on that
build (its `current_state_code_id` and all other fields are untouched),
leaves every other build row unchanged, and does not touch the project or
state-code tables. -/
theorem c6_record_failure_frame (db : Db) (hid bid : Nat) (em ec : Option String) (b : Build)
    (hfind : findBuild db bid = some b) (hrun : b.end_date = none) :
    (record_build_failure db hid bid em ec).2 =
      .ok ⟨hid, bid, b.current_state_code_id, "failed", some "Build failure recorded", em, ec, db.now⟩ ∧
    (record_build_failure db hid bid em ec).1.build_states =
      db.build_states ++ [⟨hid, bid, b.current_state_code_id, "failed", some "Build failure recorded", em, ec, db.now⟩] ∧
    findBuild (record_build_failure db hid bid em ec).1 bid =
      some { b with status := "failed", end_date := some db.now } ∧
    (∀ x ∈ db.builds, (x.id == bid) = false → x ∈ (record_build_failure db hid bid em ec).1.builds) ∧
    (record_build_failure db hid bid em ec).1.projects = db.projects ∧
    (record_build_failure db hid bid em ec).1.state_codes = db.state_codes := by
  have hfind' : db.builds.find? (fun x => x.id == bid) = some b := hfind
  have hpb : (b.id == bid) = true := by
    have h := List.find?_some hfind'
    simpa using h
  refine ⟨?_, ?_, ?_, ?_, ?_, ?_⟩
  · simp [record_build_failure, findBuild, hfind', hrun]
  · simp [record_build_failure, findBuild, hfind', hrun]
  · have : (updateFirst (fun x => x.id == bid)
        (fun x => { x with status := "failed", end_date := some db.now }) db.builds).find?
          (fun x => x.id == bid) =
        some { b with status := "failed", end_date := some db.now } :=
      find?_updateFirst hfind' hpb
    simp [record_build_failure, findBuild, hfind', hrun, this]
  · intro x hx hne
    have : x ∈ updateFirst (fun y => y.id == bid)
        (fun y => { y with status := "failed", end_date := some db.now }) db.builds :=
      mem_updateFirst_of_ne hx hne
    simp [record_build_failure, findBuild, hfind', hrun, this]
  · simp [record_build_failure, findBuild, hfind', hrun]
  · simp [record_build_failure, findBuild, hfind', hrun]

/-- C6 witness: recording a failure on the running build of `exDb6`. -/
theorem c6_witness :
    (record_build_failure exDb6 9 1 (some "timeout") (some "E1")).2 =
      .ok ⟨9, 1, 1, "failed", some "Build failure recorded", some "timeout", some "E1", 4⟩ ∧
    (record_build_failure exDb6 9 1 (some "timeout") (some "E1")).1.build_states =
      [⟨9, 1, 1, "failed", some "Build failure recorded", some "timeout", some "E1", 4⟩] ∧
    findBuild (record_build_failure exDb6 9 1 (some "timeout") (some "E1")).1 1 =
      some ⟨1, 1, 1, "failed", 0, some 4⟩ ∧
    (∀ x ∈ exDb6.builds, (x.id == 1) = false →
      x ∈ (record_build_failure exDb6 9 1 (some "timeout") (some "E1")).1.builds) ∧
    (record_build_failure exDb6 9 1 (some "timeout") (some "E1")).1.projects = exDb6.projects ∧
    (record_build_failure exDb6 9 1 (some "timeout") (some "E1")).1.state_codes = exDb6.state_codes :=
  c6_record_failure_frame exDb6 9 1 (some "timeout") (some "E1")
    ⟨1, 1, 1, "running", 0, none⟩ rfl rfl

/-- C8 counterexample: on an active project with no active initial state
code, `create_build` raises status 400, not the claimed 404 (NotFound). -/
theorem c8_counterexample :
    (create_build exDb8 10 11 1).2 =
      .error ⟨400, "No initial state defined for this project. Please create an initial state code."⟩ ∧
    (400 : Nat) ≠ 404 := by
  exact ⟨rfl, by decide⟩

/-- C8 (amended): on an active project with no active initial state code,
`create_build` fails with HTTP status 400 and leaves the store unchanged —
neither a Build row nor a history row is created. -/
theorem c8_no_initial_state (db : Db) (bid hid pid : Nat) (p : Project)
    (hp : findActiveProject db pid = some p)
    (hi : findActiveInitialState db pid = none) :
    create_build db bid hid pid =
      (db, .error ⟨400, "No initial state defined for this project. Please create an initial state code."⟩) := by
  simp [create_build, hp, hi]

/-- C8 witness: building on `exDb8` (no initial state code) is rejected
with status 400 and no mutation. -/
theorem c8_witness :
    create_build exDb8 10 11 1 =
      (exDb8, .error ⟨400, "No initial state defined for this project. Please create an initial state code."⟩) :=
  c8_no_initial_state exDb8 10 11 1 exProject rfl rfl

/-- C10: when the transition target is flagged both `is_final` and
`is_error`, the build is marked `completed` (not `failed`) — `is_final` is
tested first — and `end_date` (spec: `end_time`) is set. -/
theorem c10_final_flag_wins (db : Db) (hid bid : Nat) (name : String) (msg : Option String)
    (b : Build) (t : StateCode)
    (hfind : findBuild db bid = some b) (hrun : b.end_date = none)
    (ht : findTargetState db b.project_id name = some t)
    (hf : t.is_final = true) (he : t.is_error = true) :
    (update_build_state db hid bid name msg).2 =
      .ok ⟨hid, bid, t.id, "completed", msg, none, none, db.now⟩ ∧
    findBuild (update_build_state db hid bid name msg).1 bid =
      some { b with current_state_code_id := t.id, status := "completed", end_date := some db.now } := by
  have hfind' : db.builds.find? (fun x => x.id == bid) = some b := hfind
  have hpb : (b.id == bid) = true := by
    have h := List.find?_some hfind'
    simpa using h
  constructor
  · simp [update_build_state, findBuild, hfind', hrun, ht, newStatusFor, hf]
  · have : (updateFirst (fun x => x.id == bid)
        (fun x => { x with
          current_state_code_id := t.id,
          status := newStatusFor t,
          end_date := if t.is_final || t.is_error then some db.now else x.end_date }) db.builds).find?
          (fun x => x.id == bid) =
        some { b with
          current_state_code_id := t.id,
          status := newStatusFor t,
          end_date := if t.is_final || t.is_error then some db.now else b.end_date } :=
      find?_updateFirst hfind' hpb
    simp only [newStatusFor, hf, he, if_true, Bool.true_or] at this
    simp [update_build_state, findBuild, hfind', hrun, ht, this, newStatusFor, hf]

/-- C10 witness: transitioning the running build of `exDb10` to the
state flagged both final and error yields status completed with
`end_date` set. -/
theorem c10_witness :
    (update_build_state exDb10 9 1 "done-bad" none).2 =
      .ok ⟨9, 1, 2, "completed", none, none, none, 4⟩ ∧
    findBuild (update_build_state exDb10 9 1 "done-bad" none).1 1 =
      some ⟨1, 1, 2, "completed", 0, some 4⟩ :=
  c10_final_flag_wins exDb10 9 1 "done-bad" none ⟨1, 1, 1, "running", 0, none⟩
    exFinalErrorCode rfl rfl rfl rfl rfl

/-- C4: every build in a store reachable by `create_build`,
`update_build_state` and `record_build_failure` satisfies the invariant
`end_date` set ⟺ status ∈ {completed, failed}. -/
theorem c4_end_time_iff_terminal (db : Db) (h : Reachable db) :
    ∀ b ∈ db.builds, BuildOk b := by
  induction h with
  | start db hdb =>
    intro b hb
    rw [hdb] at hb
    simp at hb
  | create db bid hid pid hr ih =>
    intro y hy
    rcases hfp : findActiveProject db pid with _ | p
    · simp only [create_build, hfp] at hy
      exact ih y hy
    · rcases hfi : findActiveInitialState db pid with _ | ist
      · simp only [create_build, hfp, hfi] at hy
        exact ih y hy
      · simp only [create_build, hfp, hfi, List.mem_append, List.mem_singleton] at hy
        rcases hy with hy | rfl
        · exact ih y hy
        · simp [BuildOk]
  | transition db hid bid name msg hr ih =>
    intro y hy
    rcases hfb : findBuild db bid with _ | b
    · simp only [update_build_state, hfb] at hy
      exact ih y hy
    · have hfb' : db.builds.find? (fun x => x.id == bid) = some b := hfb
      by_cases hterm : b.end_date = none
      · rcases hts : findTargetState db b.project_id name with _ | t
        · simp only [update_build_state, hfb, hterm, hts] at hy
          simp at hy
          exact ih y hy
        · simp only [update_build_state, hfb, hterm, hts] at hy
          simp at hy
          rcases mem_updateFirst hfb' y hy with h1 | rfl
          · exact ih y h1
          · cases hf : t.is_final <;> cases he : t.is_error <;>
              simp [BuildOk, newStatusFor, hf, he, hterm]
      · simp only [update_build_state, hfb] at hy
        rw [if_pos hterm] at hy
        exact ih y hy
  | fail db hid bid em ec hr ih =>
    intro y hy
    rcases hfb : findBuild db bid with _ | b
    · simp only [record_build_failure, hfb] at hy
      exact ih y hy
    · have hfb' : db.builds.find? (fun x => x.id == bid) = some b := hfb
      by_cases hterm : b.end_date = none
      · simp only [record_build_failure, hfb, hterm] at hy
        simp at hy
        rcases mem_updateFirst hfb' y hy with h1 | rfl
        · exact ih y h1
        · simp [BuildOk]
      · simp only [record_build_failure, hfb] at hy
        rw [if_pos hterm] at hy
        exact ih y hy

/-- C4 witness: the build created on the fresh store `exDb4` satisfies the
invariant (running, no `end_date`). -/
theorem c4_witness : BuildOk ⟨10, 1, 1, "running", 0, none⟩ :=
  c4_end_time_iff_terminal (create_build exDb4 10 11 1).1
    (Reachable.create exDb4 10 11 1 (Reachable.start exDb4 rfl))
    ⟨10, 1, 1, "running", 0, none⟩ (by decide)

/-! ## C9: initial-state uniqueness -/

theorem filter_eq_nil_of_find?_eq_none {α : Type} {p : α → Bool} {l : List α}
    (h : l.find? p = none) : l.filter p = [] := by
  induction l with
  | nil => rfl
  | cons x xs ih =>
    by_cases hx : p x
    · rw [List.find?_cons_of_pos _ hx] at h
      exact absurd h (by simp)
    · rw [List.find?_cons_of_neg _ hx] at h
      rw [List.filter_cons]
      simp only [hx]
      exact ih h

theorem length_filter_updateFirst_le {α : Type} (q p : α → Bool) (f : α → α)
    (hq : ∀ x, q (f x) = false) :
    ∀ l : List α, ((updateFirst p f l).filter q).length ≤ (l.filter q).length := by
  intro l
  induction l with
  | nil => simp [updateFirst]
  | cons x xs ih =>
    by_cases hx : p x
    · simp only [updateFirst, hx, if_true, List.filter_cons, hq x]
      by_cases hqx : q x
      · simp only [hqx, if_true]
        simp only [Bool.false_eq_true, if_false, List.length_cons]
        exact Nat.le_succ _
      · simp [hqx]
    · simp only [updateFirst, hx, if_false, Bool.false_eq_true, List.filter_cons]
      by_cases hqx : q x
      · simp only [hqx, if_true, List.length_cons]
        exact Nat.succ_le_succ ih
      · simp only [hqx, Bool.false_eq_true, if_false]
        exact ih

theorem initialInv_create (db : Db) (scid pid : Nat) (sc : StateCodeCreate)
    (hinv : InitialInv db) : InitialInv (create_state_code db scid pid sc).1 := by
  rcases hfp : findActiveProject db pid with _ | p
  · simpa [create_state_code, hfp] using hinv
  · by_cases hdup :
      (db.state_codes.find? (fun c => c.project_id == pid && c.name == sc.name && c.end_date == none)).isSome
    · simpa [create_state_code, hfp, hdup] using hinv
    · by_cases hini : (sc.is_initial && (findActiveInitialState db pid).isSome) = true
      · simpa [create_state_code, hfp, hdup, hini] using hinv
      · have hstep : (create_state_code db scid pid sc).1 =
            { db with
              state_codes := db.state_codes ++
                [⟨scid, pid, sc.name, sc.description, sc.is_initial, sc.is_final, sc.is_error, none⟩],
              now := db.now + 1 } := by
          simp [create_state_code, hfp, hdup, hini]
        intro q hq
        rw [hstep] at hq ⊢
        have hq' : q ∈ db.projects := hq
        by_cases hrow :
            activeInitialFor q.id ⟨scid, pid, sc.name, sc.description, sc.is_initial, sc.is_final, sc.is_error, none⟩ = true
        · have hpid : (pid == q.id) = true := by
            have := hrow
            simp only [activeInitialFor, Bool.and_eq_true] at this
            exact this.1.1
          have hsi : sc.is_initial = true := by
            have := hrow
            simp only [activeInitialFor, Bool.and_eq_true] at this
            exact this.1.2
          rcases hfi : findActiveInitialState db pid with _ | c
          · have hnil : db.state_codes.filter (activeInitialFor pid) = [] :=
              filter_eq_nil_of_find?_eq_none hfi
            have hpid' : pid = q.id := by simpa using hpid
            simp only [activeInitialCount, List.filter_append, List.length_append]
            rw [List.filter_cons]
            simp only [hrow, if_true]
            rw [← hpid', hnil]
            simp
          · exfalso
            apply hini
            rw [hfi, hsi]
            simp
        · simp only [activeInitialCount, List.filter_append, List.length_append]
          rw [List.filter_cons]
          simp only [hrow, Bool.false_eq_true, if_false]
          simpa [activeInitialCount] using hinv q hq'

theorem initialInv_delete (db : Db) (pid scid : Nat)
    (hinv : InitialInv db) : InitialInv (delete_state_code db pid scid).1 := by
  rcases hfc : db.state_codes.find? (activeCodePred pid scid) with _ | c
  · simpa [delete_state_code, hfc] using hinv
  · by_cases hbusy :
      (db.builds.filter (fun b => b.current_state_code_id == scid && b.end_date == none)).length > 0
    · simpa [delete_state_code, hfc, hbusy] using hinv
    · have hstep : (delete_state_code db pid scid).1 =
          { db with
            state_codes := updateFirst (activeCodePred pid scid)
              (fun x => { x with end_date := some db.now }) db.state_codes,
            now := db.now + 1 } := by
        simp [delete_state_code, hfc, hbusy]
      intro q hq
      rw [hstep] at hq ⊢
      have hq' : q ∈ db.projects := hq
      have hle := length_filter_updateFirst_le (activeInitialFor q.id) (activeCodePred pid scid)
        (fun x => { x with end_date := some db.now })
        (fun x => by simp [activeInitialFor, some_beq_none]) db.state_codes
      exact Nat.le_trans hle (hinv q hq')

/-- C9 counterexample: `exDb9` satisfies the at-most-one-active-initial
invariant, yet a successful `update_state_code` setting `is_initial` on a
second code leaves the project with two active initial state codes. -/
theorem c9_counterexample :
    activeInitialCount exDb9 1 = 1 ∧
    (update_state_code exDb9 1 2 u9).2 = .ok ⟨2, 1, "b", none, true, false, false, none⟩ ∧
    activeInitialCount (update_state_code exDb9 1 2 u9).1 1 = 2 := by
  refine ⟨rfl, rfl, rfl⟩

/-- C9 (amended): `create_state_code` and `delete_state_code` preserve the
at-most-one-active-initial invariant; `update_state_code` performs no such
check and can violate it. -/
theorem c9_create_delete_preserve_inv :
    (∀ (db : Db) (scid pid : Nat) (sc : StateCodeCreate),
      InitialInv db → InitialInv (create_state_code db scid pid sc).1) ∧
    (∀ (db : Db) (pid scid : Nat),
      InitialInv db → InitialInv (delete_state_code db pid scid).1) :=
  ⟨initialInv_create, initialInv_delete⟩

/-- C9 witness: creating an initial code on a code-free store and deleting
the initial code of `exDb9` both keep the invariant. -/
theorem c9_witness :
    InitialInv (create_state_code exDb9w 5 1 exScCreate).1 ∧
    InitialInv (delete_state_code exDb9 1 1).1 :=
  ⟨c9_create_delete_preserve_inv.1 exDb9w 5 1 exScCreate (by unfold InitialInv; decide),
   c9_create_delete_preserve_inv.2 exDb9 1 1 (by unfold InitialInv; decide)⟩

/-! ## C2, C3: resume context reconstruction -/

theorem maxByCreated_eq_getLast :
    ∀ (rs : List HistRow) (m : HistRow),
      rs.Pairwise (fun x y => x.created_at < y.created_at) →
      (∀ r ∈ rs, m.created_at < r.created_at) →
      some (maxByCreated m rs) = (m :: rs).getLast? := by
  intro rs
  induction rs with
  | nil =>
    intro m _ _
    simp [maxByCreated]
  | cons s rs' ih =>
    intro m h1 h2
    have hms : m.created_at < s.created_at := h2 s (by simp)
    have hp := List.pairwise_cons.mp h1
    have hstep : maxByCreated m (s :: rs') = maxByCreated s rs' := by
      simp [maxByCreated, hms]
    rw [hstep, List.getLast?_cons_cons]
    exact ih s hp.2 hp.1

theorem mostRecent?_eq_getLast? (l : List HistRow)
    (h : l.Pairwise (fun x y => x.created_at < y.created_at)) :
    mostRecent? l = l.getLast? := by
  cases l with
  | nil => rfl
  | cons r rs =>
    have hp := List.pairwise_cons.mp h
    simpa [mostRecent?] using maxByCreated_eq_getLast rs r hp.2 hp.1

/-- C2 (amended): `last_successful_state` is always an integer: the state
of the most recent `completed` history row (here: the last such row, under
strictly increasing `created_at`), and 0 — not None — when no completed row
exists. -/
theorem c2_last_successful_state (db : ResumeDb) (bid : Nat) (ctx : ResumeContext)
    (hctx : get_resume_context db bid = .ok ctx)
    (hmono : (completedRowsOf db bid).Pairwise (fun x y => x.created_at < y.created_at)) :
    ctx.last_successful_state =
      some (match (completedRowsOf db bid).getLast? with
            | some r => r.state
            | none => 0) := by
  rcases hfb : db.builds.find? (fun b => b.id == bid) with _ | b
  · simp [get_resume_context, hfb] at hctx
  · simp only [get_resume_context, hfb] at hctx
    injection hctx with h
    subst h
    rw [mostRecent?_eq_getLast? _ hmono]

/-- C2 witness: with two completed rows the endpoint reports the state of
the later one. -/
theorem c2_witness :
    exCtx2w.last_successful_state =
      some (match (completedRowsOf exDb2w 1).getLast? with
            | some r => r.state
            | none => 0) :=
  c2_last_successful_state exDb2w 1 exCtx2w rfl (by decide)

/-- C3 counterexample: the query behind the resume-context artifact list
(resume.py 367-371) orders by `state_code` alone, so its contract on the
spec's own [10, 5, 5] scenario is exactly `SqlStateCodeSorted`; the output
[5-second-inserted, 5-first-inserted, 10] satisfies that contract yet
violates the claimed (state_code, created_at) ordering — the tie-break the
claim asserts is not guaranteed by the program. -/
theorem c3_counterexample :
    SqlStateCodeSorted (resumableArtifactsOf exDb3 1) [exArt5b, exArt5a, exArt10] ∧
    ¬ ([exArt5b, exArt5a, exArt10].Pairwise artifactLex) := by
  refine ⟨⟨by decide, by decide⟩, by decide⟩

/-- C3 (amended): the artifacts list of the resume context contains exactly
the non-deleted `is_resumable` artifacts of the build (as a permutation) and
is sorted by `state_code` ascending; the order among artifacts sharing a
state_code is not specified — the query requests no `created_at` key. -/
theorem c3_resume_artifacts_state_code_sorted (db : ResumeDb) (bid : Nat) (ctx : ResumeContext)
    (hctx : get_resume_context db bid = .ok ctx) :
    SqlStateCodeSorted (resumableArtifactsOf db bid) ctx.artifacts := by
  rcases hfb : db.builds.find? (fun b => b.id == bid) with _ | b
  · simp [get_resume_context, hfb] at hctx
  · simp only [get_resume_context, hfb] at hctx
    injection hctx with h
    subst h
    exact ⟨List.perm_insertionSort stateCodeLe _,
      List.sorted_insertionSort stateCodeLe (resumableArtifactsOf db bid)⟩

/-- C3 witness: on the [10, 5, 5] store the returned artifact list is a
state_code-sorted permutation of the resumable artifacts. -/
theorem c3_state_code_witness :
    SqlStateCodeSorted (resumableArtifactsOf exDb3 1) exCtx3.artifacts :=
  c3_resume_artifacts_state_code_sorted exDb3 1 exCtx3 rfl

/-! ## C7: sensitive-variable masking -/

theorem mem_dictSet {d : List (String × String)} {k v : String} {p : String × String}
    (h : p ∈ dictSet d k v) : p ∈ d ∨ p = (k, v) := by
  unfold dictSet at h
  by_cases hany : d.any (fun q => q.1 == k)
  · rw [if_pos hany] at h
    rcases List.mem_map.mp h with ⟨q, hq, hpq⟩
    by_cases hk : (q.1 == k) = true
    · right
      rw [← hpq]
      simp [hk]
    · left
      rw [← hpq]
      simpa [hk] using hq
  · rw [if_neg hany] at h
    rcases List.mem_append.mp h with h | h
    · left; exact h
    · right; simpa using h

theorem foldl_dict_inv (G : String × String → Prop) :
    ∀ (l : List BuildVariable) (acc : List (String × String)),
      (∀ p ∈ acc, G p) →
      (∀ v ∈ l, G (v.variable_key, maskValue v)) →
      ∀ p ∈ l.foldl (fun a v => dictSet a v.variable_key (maskValue v)) acc, G p := by
  intro l
  induction l with
  | nil =>
    intro acc hacc _ p hp
    exact hacc p (by simpa using hp)
  | cons v l' ih =>
    intro acc hacc hl p hp
    rw [List.foldl_cons] at hp
    refine ih (dictSet acc v.variable_key (maskValue v)) ?_
      (fun w hw => hl w (List.mem_cons_of_mem _ hw)) p hp
    intro q hq
    rcases mem_dictSet hq with h | rfl
    · exact hacc q h
    · exact hl v (List.mem_cons_self _ _)

theorem maskedDict_congr_mid (A B : List BuildVariable) (v w : BuildVariable)
    (hk : v.variable_key = w.variable_key) (hm : maskValue v = maskValue w) :
    maskedDict (A ++ v :: B) = maskedDict (A ++ w :: B) := by
  simp only [maskedDict, List.foldl_append, List.foldl_cons]
  rw [hk, hm]

theorem mem_of_applyResumeFlag {filt : Option Bool} {l : List BuildVariable}
    {u : BuildVariable} (h : u ∈ applyResumeFlag filt l) : u ∈ l := by
  cases filt with
  | none => exact h
  | some r => exact List.mem_of_mem_filter h

/-- C7: (i) the masked key→value projection — shared by the variables/dict
endpoint and the resume context — is unchanged when the stored value of a
sensitive variable changes (noninterference), and (ii) every value it
exposes is either the fixed mask string or the value of some non-sensitive
variable; a sensitive variable thus only ever surfaces as the mask. -/
theorem c7_sensitive_value_noninterference (filt : Option Bool)
    (pre post : List BuildVariable) (v : BuildVariable) (newVal : String)
    (k val : String) (hs : v.is_sensitive = true) :
    varsToDict filt (pre ++ v :: post) =
      varsToDict filt (pre ++ { v with variable_value := newVal } :: post) ∧
    ((k, val) ∈ varsToDict filt (pre ++ v :: post) →
      val = "******" ∨
        ∃ w, w ∈ pre ++ v :: post ∧ w.is_sensitive = false ∧
          w.variable_key = k ∧ w.variable_value = val) := by
  have hmask : maskValue v = maskValue { v with variable_value := newVal } := by
    simp [maskValue, hs]
  constructor
  · cases filt with
    | none =>
      simpa [varsToDict, applyResumeFlag] using
        maskedDict_congr_mid pre post v { v with variable_value := newVal } rfl hmask
    | some r =>
      simp only [varsToDict, applyResumeFlag, List.filter_append, List.filter_cons]
      by_cases hkeep : (v.is_required_for_resume == r) = true
      · simp only [hkeep, if_true]
        exact maskedDict_congr_mid (pre.filter _) (post.filter _) v
          { v with variable_value := newVal } rfl hmask
      · simp only [hkeep, Bool.false_eq_true, if_false]
  · intro hmem
    have hG := foldl_dict_inv
      (fun p => p.2 = "******" ∨
        ∃ w, w ∈ pre ++ v :: post ∧ w.is_sensitive = false ∧
          w.variable_key = p.1 ∧ w.variable_value = p.2)
      (applyResumeFlag filt (pre ++ v :: post)) []
      (by simp)
      (by
        intro u hu
        by_cases hsu : u.is_sensitive = true
        · exact Or.inl (by simp [maskValue, hsu])
        · exact Or.inr ⟨u, mem_of_applyResumeFlag hu, by simpa using hsu, rfl,
            by simp [maskValue, hsu]⟩)
      (k, val) hmem
    simpa using hG

/-- C7 witness: replacing the stored secret of a sensitive variable leaves
the projection unchanged, and the key maps to the mask. -/
theorem c7_witness :
    varsToDict none ([] ++ exVarSensitive :: []) =
      varsToDict none ([] ++ { exVarSensitive with variable_value := "other" } :: []) ∧
    (("token", "******") ∈ varsToDict none ([] ++ exVarSensitive :: []) →
      "******" = "******" ∨
        ∃ w, w ∈ [] ++ exVarSensitive :: [] ∧ w.is_sensitive = false ∧
          w.variable_key = "token" ∧ w.variable_value = "******") :=
  c7_sensitive_value_noninterference none [] [] exVarSensitive "other" "token" "******" rfl

end StateBuild
